import Mathlib

/-!
# Verification of the fbwidget request-gating and caching pipeline

Shallow embedding of the two source files of the repository
(`facebook.py` and `main.py`) and proofs about the claims of its
specification.

Modelling conventions:
* Python strings are Lean `String`s; `str.lower()` is modelled for the
  ASCII range by `lowerStr`; `str.strip()` by `pyStrip`.
* Python `float` timestamps (`time.monotonic()`) are modelled by `ℚ`:
  every float is a rational and all arithmetic used by the source
  (`+`, `-`, comparison, `int(...)` truncation) is exact on `ℚ`.
* Python `int(x)` on a float truncates toward zero: `pyInt`.
* A Python `dict` is modelled by an association list whose lookup
  returns the first matching binding and whose store removes any old
  binding for the key before adding the new one, matching `dict`
  lookup/assignment observationally.
* HTTP headers are `Option String`: `none` means the header is absent,
  `some s` means it is present with value `s` (possibly empty), which
  is what `request.headers.get(...)` distinguishes.
* Network I/O (`httpx`) is external; the upstream is passed in as an
  oracle function from request parameters to the decoded JSON body,
  and each function returns the number of network calls it performed,
  so that "no network call is made" is statable.
-/

/-- Python `int(q)` on a float/rational: truncation toward zero. -/
def pyInt (q : ℚ) : ℤ := if 0 ≤ q then ⌊q⌋ else ⌈q⌉

/-- Python truthiness of an optional string (`None` and `""` are falsy). -/
def pyTruthy : Option String → Bool
  | none => false
  | some s => s ≠ ""

/-- ASCII lower-casing of one character, the character-level content of
Python `str.lower()` on ASCII input. -/
def lowerChar (c : Char) : Char :=
  if 'A' ≤ c ∧ c ≤ 'Z' then Char.ofNat (c.toNat + 32) else c

/-- Python `str.lower()` (modelled on the ASCII range). -/
def lowerStr (s : String) : String := String.mk (s.data.map lowerChar)

/-- Python `str.strip()`: removes leading and trailing whitespace. -/
def pyStrip (s : String) : String :=
  String.mk (((s.data.dropWhile Char.isWhitespace).reverse.dropWhile Char.isWhitespace).reverse)

/-- Python `s.startswith(pre)`: prefix test on the character list. -/
def pyStartswith (s pre : String) : Bool := pre.data.isPrefixOf s.data

/-- Python `a or b` for `a` an optional/empty string defaulting to a
string `b`: the first truthy value wins. -/
def pyOr (a : Option String) (b : String) : String :=
  match a with
  | some s => if s = "" then b else s
  | none => b

/-! ## facebook.py -/

/-- `_RATE_LIMIT_CODES = frozenset({4, 17, 32, 613})` (facebook.py:10). -/
def rateLimitCodes : List ℤ := [4, 17, 32, 613]

/-- `_PERMISSION_CODES = frozenset({10, *range(200, 300)})` (facebook.py:11). -/
def isPermissionCode (c : ℤ) : Bool := c == 10 || (200 ≤ c && c < 300)

/-- The concrete exception classes raised by `facebook.py` (lines 16-37),
plus `unexpected` for any exception outside the `FacebookAPIError`
hierarchy (caught by the bare `except Exception` in `api_posts`).
`facebookAPIError` is the base class raised directly at facebook.py:82. -/
inductive FBError where
  | configurationError (msg : String)
  | rateLimitError (msg : String)
  | pageNotFoundError (msg : String)
  | tokenError (msg : String)
  | permissionError (msg : String)
  | facebookAPIError (msg : String)
  | unexpected (msg : String)
  deriving DecidableEq, Repr

/-- The embedded `error` object of an upstream JSON body: its `code` and
`message` keys, each possibly absent (`dict.get` with a default). -/
structure FBErrObj where
  code : Option ℤ
  message : Option String
  deriving DecidableEq, Repr

/-- One raw item of the upstream `/posts` response, fields possibly
absent. -/
structure FBItem where
  id : Option String
  message : Option String
  story : Option String
  created_time : Option String
  full_picture : Option String
  permalink_url : Option String
  deriving DecidableEq, Repr

/-- A decoded upstream JSON body. `error = none` models both an absent
`error` key and a falsy one (the `if not err:` guard at facebook.py:70);
`error = some e` models a non-empty error object. The remaining fields
are the data keys read by `get_page_info` (`id`, `name`, the nested
`picture.data.url` flattened to `pictureUrl`) and by `get_page_posts`
(`data`, a list of items). -/
structure FBData where
  error : Option FBErrObj
  id : Option String
  name : Option String
  pictureUrl : Option String
  items : List FBItem
  deriving DecidableEq, Repr

/-- `_raise_for_api_error` (facebook.py:68-82) as a function from the
optional error object to the optional exception it raises. -/
def raiseForApiError (err : Option FBErrObj) : Option FBError :=
  match err with
  | none => none
  | some e =>
    let code := e.code.getD 0
    let msg := e.message.getD "Unknown Facebook API error"
    if code ∈ rateLimitCodes then some (.rateLimitError msg)
    else if code = 100 then some (.pageNotFoundError msg)
    else if code = 190 then some (.tokenError msg)
    else if isPermissionCode code then some (.permissionError msg)
    else some (.facebookAPIError msg)

/-- `_get_access_token` (facebook.py:54-58): reads the `FB_ACCESS_TOKEN`
environment value, strips it, and raises `TokenError` when empty. -/
def getAccessToken (env : String) : Except FBError String :=
  if pyStrip env = "" then .error (.tokenError "FB_ACCESS_TOKEN not set in .env")
  else .ok (pyStrip env)

/-- `get_page_id` (facebook.py:61-65): reads the `FB_PAGE_ID` environment
value, strips it, and raises `ConfigurationError` when empty. -/
def getPageId (env : String) : Except FBError String :=
  if pyStrip env = "" then .error (.configurationError "FB_PAGE_ID not set in .env")
  else .ok (pyStrip env)

/-- The normalized post shape produced by `_normalize_post`. -/
structure Post where
  id : String
  message : String
  created_time : String
  full_picture : Option String
  permalink_url : String
  deriving DecidableEq, Repr

/-- `_normalize_post` (facebook.py:85-92). `item.get(k, "")` is
`(item.k).getD ""`; `item.get("message") or item.get("story") or ""` is
the `pyOr` chain. -/
def normalizePost (item : FBItem) : Post :=
  { id := item.id.getD ""
    message := pyOr item.message (pyOr item.story "")
    created_time := item.created_time.getD ""
    full_picture := item.full_picture
    permalink_url := item.permalink_url.getD "" }

/-- The page profile shape produced by `get_page_info`. -/
structure Profile where
  id : String
  name : String
  picture_url : String
  deriving DecidableEq, Repr

/-- `get_page_info` (facebook.py:95-107). `envToken` is the raw
`FB_ACCESS_TOKEN` environment value and `resp` the decoded JSON body the
network would return. The second component counts network calls: the
access token is read while building the request parameters, so a missing
token aborts with 0 calls; otherwise exactly one call is made. A body
whose `error` passes the check but that lacks the `id` key makes
`data["id"]` raise `KeyError`, an exception outside the taxonomy. -/
def getPageInfo (envToken : String) (resp : FBData) : Except FBError Profile × ℕ :=
  match getAccessToken envToken with
  | .error e => (.error e, 0)
  | .ok _ =>
    match raiseForApiError resp.error with
    | some e => (.error e, 1)
    | none =>
      match resp.id with
      | none => (.error (.unexpected "KeyError: id"), 1)
      | some i =>
        (.ok { id := i, name := resp.name.getD "", picture_url := resp.pictureUrl.getD "" }, 1)

/-- `get_page_posts` (facebook.py:110-122), same conventions as
`getPageInfo`; on success the items of `data.get("data", [])` are
normalized in order. -/
def getPagePosts (envToken : String) (resp : FBData) : Except FBError (List Post) × ℕ :=
  match getAccessToken envToken with
  | .error e => (.error e, 0)
  | .ok _ =>
    match raiseForApiError resp.error with
    | some e => (.error e, 1)
    | none => (.ok (resp.items.map normalizePost), 1)

/-! ## main.py -/

/-- The success payload `{"page": page_info, "posts": posts}` built at
main.py:296. -/
structure Payload where
  page : Profile
  posts : List Post
  deriving DecidableEq, Repr

/-- A JSON response body: either the success payload or the error
envelope `{"error": msg}`. -/
inductive Body where
  | payload (p : Payload)
  | error (msg : String)
  deriving DecidableEq, Repr

/-- A `JSONResponse`: status code, body, and the `Cache-Control` header
when one is attached. -/
structure Resp where
  status : ℕ
  body : Body
  cacheControl : Option String
  deriving DecidableEq, Repr

/-- The `except` chain of `api_posts` (main.py:280-294): each concrete
exception class is mapped to one status, the message is echoed in the
error envelope except for the final bare `except Exception`, which
replaces it with `"Internal server error"`. -/
def errResp : FBError → Resp
  | .rateLimitError m => ⟨429, .error m, none⟩
  | .pageNotFoundError m => ⟨404, .error m, none⟩
  | .configurationError m => ⟨500, .error m, none⟩
  | .tokenError m => ⟨500, .error m, none⟩
  | .permissionError m => ⟨403, .error m, none⟩
  | .facebookAPIError m => ⟨502, .error m, none⟩
  | .unexpected _ => ⟨500, .error "Internal server error", none⟩

/-- `_posts_cache : dict[tuple[str, int], tuple[float, dict]]`
(main.py:28), as an association list from `(page_id, limit)` to
`(expiry, payload)`. -/
abbrev Cache := List ((String × ℤ) × (ℚ × Payload))

/-- Dict lookup `_posts_cache.get(key)`: first binding for the key. -/
def cacheGet (c : Cache) (k : String × ℤ) : Option (ℚ × Payload) :=
  (c.find? (fun e => e.1 = k)).map (·.2)

/-- Dict assignment `_posts_cache[key] = value`: replaces any previous
binding for the key. -/
def cacheSet (c : Cache) (k : String × ℤ) (v : ℚ × Payload) : Cache :=
  (k, v) :: c.filter (fun e => ¬ e.1 = k)

/-- `_get_cached_posts` (main.py:252-263): returns the cached response
when an entry exists and `int(expiry - time.monotonic())` is positive;
a hit carries `Cache-Control: public, max-age=<remaining>`. The function
only reads the cache. -/
def getCachedPosts (cache : Cache) (now : ℚ) (pageId : String) (limit : ℤ) : Option Resp :=
  match cacheGet cache (pageId, limit) with
  | none => none
  | some (expiry, payload) =>
    let remaining := pyInt (expiry - now)
    if remaining ≤ 0 then none
    else some ⟨200, .payload payload, some ("public, max-age=" ++ toString remaining)⟩

/-- `api_posts` (main.py:266-300), the route handler body: cache lookup,
then `get_page_info` and `get_page_posts`, the `except` chain, and on
success the cache store with `expires_at = now + CACHE_TTL_SECONDS` and
`Cache-Control: public, max-age=<ttl>`. `oi`/`op` are the upstream
oracle (decoded body per request parameters); the last component is the
total number of upstream network calls performed. -/
def apiPosts (envToken : String) (oi : String → FBData) (op : String → ℤ → FBData)
    (now : ℚ) (ttl : ℤ) (cache : Cache) (pageId : String) (limit : ℤ) :
    Resp × Cache × ℕ :=
  match getCachedPosts cache now pageId limit with
  | some r => (r, cache, 0)
  | none =>
    match getPageInfo envToken (oi pageId) with
    | (.error e, n1) => (errResp e, cache, n1)
    | (.ok page, n1) =>
      match getPagePosts envToken (op pageId limit) with
      | (.error e, n2) => (errResp e, cache, n1 + n2)
      | (.ok posts, n2) =>
        let payload : Payload := ⟨page, posts⟩
        (⟨200, .payload payload, some ("public, max-age=" ++ toString ttl)⟩,
         cacheSet cache (pageId, limit) (now + (ttl : ℚ), payload), n1 + n2)

/-- An inbound HTTP request as the source reads it: URL path, method,
the two headers it inspects (`none` = absent, `some s` = present with
value `s`), the client network address when the server knows one, and
the query parameters of `/api/posts`. -/
structure Request where
  path : String
  method : String
  apiKey : Option String
  origin : Option String
  client : Option String
  queryPageId : String
  queryLimit : ℤ
  deriving DecidableEq, Repr

/-- `request.client.host if request.client else "unknown"`
(main.py:116). -/
def clientHost (r : Request) : String :=
  match r.client with
  | some h => h
  | none => "unknown"

/-- `_identify_requester` (main.py:112-117): `"key:" + api_key` when the
`X-Api-Key` header is truthy (present and non-empty), else
`"ip:" + client_ip`. -/
def identifyRequester (r : Request) : String :=
  match r.apiKey with
  | some k => if k ≠ "" then "key:" ++ k else "ip:" ++ clientHost r
  | none => "ip:" ++ clientHost r

/-- Drops characters up to and including the first `"//"`, or `none`
when there is none: the position where `urlparse` starts the netloc. -/
def dropToNetloc : List Char → Option (List Char)
  | [] => none
  | '/' :: '/' :: rest => some rest
  | _ :: rest => dropToNetloc rest

/-- `urlparse(url).netloc` for the URL shapes an `Origin` header can
take: the text after the first `"//"` up to the next `/`, `?` or `#`;
empty when the value has no `"//"` at all (e.g. `Origin: null`). -/
def urlNetloc (url : String) : String :=
  match dropToNetloc url.data with
  | none => ""
  | some rest => String.mk (rest.takeWhile (fun c => !(c == '/' || c == '?' || c == '#')))

/-- `_extract_request_origin` (main.py:158-163): empty string when the
header is absent or empty, else the lower-cased netloc. -/
def extractRequestOrigin (r : Request) : String :=
  let originHeader := r.origin.getD ""
  if originHeader = "" then "" else lowerStr (urlNetloc originHeader)

/-- The parsed `API_KEYS` registry `_api_keys` (main.py:90): `none` when
the variable is unset (open mode), else the key → domain map, again as
an association list. -/
abbrev Registry := List (String × String)

/-- Dict lookup `_api_keys.get(api_key)`. -/
def regLookup (reg : Registry) (k : String) : Option String :=
  (reg.find? (fun e => e.1 = k)).map (·.2)

/-- `_validate_api_key` (main.py:166-196): `None` when validation
passes, else the 401 `JSONResponse`. The `if not api_key:` and
`if not allowed_domain:` guards are Python truthiness checks, so an
empty string fails them like a missing value. -/
def validateApiKey (registry : Option Registry) (r : Request) : Option Resp :=
  match registry with
  | none => none
  | some reg =>
    let apiKey := r.apiKey.getD ""
    let requestOrigin := extractRequestOrigin r
    if apiKey = "" then some ⟨401, .error "Missing X-Api-Key header", none⟩
    else
      match regLookup reg apiKey with
      | none => some ⟨401, .error "Invalid API key", none⟩
      | some allowedDomain =>
        if allowedDomain = "" then some ⟨401, .error "Invalid API key", none⟩
        else if requestOrigin ≠ "" ∧ requestOrigin ≠ allowedDomain then
          some ⟨401, .error "Origin does not match API key", none⟩
        else none

/-- The `enforce_api_key` middleware (main.py:199-212) up to the point
where it either rejects or lets the request through: `none` means
`call_next` runs, `some resp` means the 401 short-circuits. Auth is
skipped for non-`/api/` paths, `OPTIONS` preflights, and when
`bool(_api_keys)` is false. -/
def enforceApiKey (registry : Option Registry) (r : Request) : Option Resp :=
  let isApiRequest := pyStartswith r.path "/api/"
  let isPreflight := r.method == "OPTIONS"
  let authEnabled := match registry with | none => false | some reg => !reg.isEmpty
  if !isApiRequest || isPreflight || !authEnabled then none
  else validateApiKey registry r

/-- Rate-limiter bucket table: admitted-request count per
`CallerIdentity` in the current window. -/
abbrev RateState := List (String × ℕ)

/-- Modelled from the spec: the slowapi `@limiter.limit("60/minute")`
decorator (main.py:267) is an external library; per the spec it is a
per-CallerIdentity fixed window admitting 60 requests per window,
answering whether the request is admitted and the updated bucket table.
Window rollover is not modelled (no claim spans windows). -/
def rateLimit (st : RateState) (ident : String) : Bool × RateState :=
  let cnt := ((st.find? (fun e => e.1 = ident)).map (·.2)).getD 0
  if cnt < 60 then (true, (ident, cnt + 1) :: st.filter (fun e => ¬ e.1 = ident))
  else (false, st)

/-- One request through the full pipeline of main.py, in the order the
source wires it: the `enforce_api_key` middleware is registered before
`CORSMiddleware` and runs before routing, so a rejection returns without
invoking `call_next` (main.py:199-212); the slowapi decorator wraps the
endpoint and so runs only when routing reaches it; `api_posts` is the
endpoint body. Result: response, rate-limiter table, cache, and number
of upstream network calls. -/
def handleRequest (registry : Option Registry) (envToken : String)
    (oi : String → FBData) (op : String → ℤ → FBData)
    (now : ℚ) (ttl : ℤ) (r : Request) (rate : RateState) (cache : Cache) :
    Resp × RateState × Cache × ℕ :=
  match enforceApiKey registry r with
  | some rej => (rej, rate, cache, 0)
  | none =>
    let ident := identifyRequester r
    match rateLimit rate ident with
    | (false, rate') => (⟨429, .error "Rate limit exceeded", none⟩, rate', cache, 0)
    | (true, rate') =>
      let (resp, cache', n) := apiPosts envToken oi op now ttl cache r.queryPageId r.queryLimit
      (resp, rate', cache', n)

/-! ## Supporting lemmas -/

theorem one_le_pyInt_iff (q : ℚ) : 1 ≤ pyInt q ↔ 1 ≤ q := by
  unfold pyInt
  split
  · rw [Int.le_floor]; norm_num
  · next h =>
    have hq : q < 0 := lt_of_not_le h
    have h1 : ⌈q⌉ ≤ 0 := Int.ceil_le.2 (by exact_mod_cast hq.le)
    constructor
    · intro h2; omega
    · intro h2; linarith

theorem pyInt_le_zero_iff (q : ℚ) : pyInt q ≤ 0 ↔ q < 1 := by
  rw [show (pyInt q ≤ 0) ↔ ¬(1 ≤ pyInt q) by omega, one_le_pyInt_iff]
  exact not_le

theorem cacheGet_cacheSet_self (c : Cache) (k : String × ℤ) (v : ℚ × Payload) :
    cacheGet (cacheSet c k v) k = some v := by
  simp [cacheGet, cacheSet]

theorem find?_filter_eq {α : Type} (l : List α) (p q : α → Bool)
    (h : ∀ a, q a = true → p a = true) : (l.filter p).find? q = l.find? q := by
  induction l with
  | nil => rfl
  | cons a rest ih =>
    by_cases hp : p a = true
    · rw [List.filter_cons_of_pos hp]
      by_cases hq : q a = true
      · rw [List.find?_cons_of_pos _ hq, List.find?_cons_of_pos _ hq]
      · rw [List.find?_cons_of_neg _ hq, List.find?_cons_of_neg _ hq, ih]
    · have hq : ¬ q a = true := fun hq => hp (h a hq)
      rw [List.filter_cons_of_neg hp, List.find?_cons_of_neg _ hq, ih]

theorem cacheGet_cacheSet_ne (c : Cache) (k k' : String × ℤ) (v : ℚ × Payload)
    (h : k' ≠ k) : cacheGet (cacheSet c k v) k' = cacheGet c k' := by
  have hk : decide (k = k') = false := by
    simp only [decide_eq_false_iff_not]
    exact fun h' => h h'.symm
  unfold cacheGet cacheSet
  rw [List.find?_cons]
  simp only [hk]
  rw [find?_filter_eq]
  intro a ha
  simp only [decide_eq_true_eq] at ha ⊢
  exact fun hak => h (ha ▸ hak ▸ rfl)

theorem string_append_left_cancel {p a b : String} (h : p ++ a = p ++ b) : a = b := by
  obtain ⟨pl⟩ := p
  obtain ⟨al⟩ := a
  obtain ⟨bl⟩ := b
  have h2 : pl ++ al = pl ++ bl := congrArg String.data h
  exact congrArg String.mk (List.append_cancel_left h2)

/-! ## Claims -/

/-- Specification-side mapping table of upstream error codes to HTTP
statuses, written from the claim's words: throttling codes yield 429,
the unknown-resource code 404, the invalid/expired-credential code 500,
permission codes 403, anything else 502. -/
def specStatusOfCode (code : ℤ) : ℕ :=
  if code ∈ rateLimitCodes then 429
  else if code = 100 then 404
  else if code = 190 then 500
  else if isPermissionCode code then 403
  else 502

/-- Claim C1: every upstream response with an embedded error object is
mapped to exactly the claimed HTTP status for its code class; an
unrecognized error yields 502 with the upstream message preserved; a
non-taxonomy exception yields 500. -/
theorem c1_upstream_error_mapping (e : FBErrObj) :
    ∃ err, raiseForApiError (some e) = some err ∧
      (errResp err).status = specStatusOfCode (e.code.getD 0) ∧
      (specStatusOfCode (e.code.getD 0) = 502 →
        ∀ m, e.message = some m → (errResp err).body = .error m) ∧
      (∀ m, errResp (FBError.unexpected m) = ⟨500, .error "Internal server error", none⟩) := by
  simp only [raiseForApiError]
  by_cases h1 : e.code.getD 0 ∈ rateLimitCodes
  · refine ⟨_, by rw [if_pos h1], by simp [specStatusOfCode, h1, errResp], ?_, fun m => rfl⟩
    simp [specStatusOfCode, h1]
  · rw [if_neg h1]
    by_cases h2 : e.code.getD 0 = 100
    · refine ⟨_, by rw [if_pos h2], ?_, ?_, fun m => rfl⟩
      · simp only [specStatusOfCode, h2, errResp]; decide
      · intro h
        rw [specStatusOfCode, h2] at h
        exact absurd h (by decide)
    · rw [if_neg h2]
      by_cases h3 : e.code.getD 0 = 190
      · refine ⟨_, by rw [if_pos h3], ?_, ?_, fun m => rfl⟩
        · simp only [specStatusOfCode, h3, errResp]; decide
        · intro h
          rw [specStatusOfCode, h3] at h
          exact absurd h (by decide)
      · rw [if_neg h3]
        by_cases h4 : isPermissionCode (e.code.getD 0) = true
        · refine ⟨_, by rw [if_pos h4], by simp [specStatusOfCode, h1, h2, h3, h4, errResp], ?_,
            fun m => rfl⟩
          simp [specStatusOfCode, h1, h2, h3, h4]
        · refine ⟨_, by rw [if_neg h4], by simp [specStatusOfCode, h1, h2, h3, h4, errResp], ?_,
            fun m => rfl⟩
          intro _ m hm
          simp [errResp, hm]

/-- Witness for C1 at the concrete error object with code 0 and message
"weird": mapped to 502 with the message preserved. -/
theorem c1_upstream_error_mapping_witness :
    ∃ err, raiseForApiError (some ⟨some 0, some "weird"⟩) = some err ∧
      (errResp err).status = 502 ∧ (errResp err).body = .error "weird" := by
  obtain ⟨err, h1, h2, h3, _⟩ := c1_upstream_error_mapping ⟨some 0, some "weird"⟩
  exact ⟨err, h1, by simpa [specStatusOfCode] using h2, h3 (by decide) "weird" rfl⟩

/-- Specification-side fallback rule: the first non-empty value of an
ordered list of optional text fields, else the empty string. -/
def specFirstNonEmpty : List (Option String) → String
  | [] => ""
  | some s :: rest => if s = "" then specFirstNonEmpty rest else s
  | none :: rest => specFirstNonEmpty rest

/-- Claim C8: normalization takes the display text as the first
non-empty of (message, story); absent required fields become the empty
string; an item with empty message and non-empty story surfaces the
story. -/
theorem c8_normalize_post (item : FBItem) :
    (normalizePost item).message = specFirstNonEmpty [item.message, item.story] ∧
    (item.id = none → (normalizePost item).id = "") ∧
    (item.created_time = none → (normalizePost item).created_time = "") ∧
    (item.permalink_url = none → (normalizePost item).permalink_url = "") ∧
    (∀ s, item.message = some "" → item.story = some s → s ≠ "" →
      (normalizePost item).message = s) := by
  refine ⟨?_, fun h => by simp [normalizePost, h], fun h => by simp [normalizePost, h],
    fun h => by simp [normalizePost, h], ?_⟩
  · rcases hm : item.message with _ | m
    · rcases hs : item.story with _ | s
      · simp [normalizePost, pyOr, specFirstNonEmpty, hm, hs]
      · by_cases h : s = "" <;> simp [normalizePost, pyOr, specFirstNonEmpty, hm, hs, h]
    · by_cases h : m = ""
      · rcases hs : item.story with _ | s
        · simp [normalizePost, pyOr, specFirstNonEmpty, hm, hs, h]
        · by_cases h2 : s = "" <;> simp [normalizePost, pyOr, specFirstNonEmpty, hm, hs, h, h2]
      · simp [normalizePost, pyOr, specFirstNonEmpty, hm, h]
  · intro s hm hs hne
    simp [normalizePost, pyOr, hm, hs, hne]

/-- Witness for C8 at an item with empty message, story "hello", and no
id: the display text comes from the story and the id defaults to "". -/
theorem c8_normalize_post_witness :
    (normalizePost ⟨none, some "", some "hello", none, none, none⟩).message = "hello" ∧
    (normalizePost ⟨none, some "", some "hello", none, none, none⟩).id = "" := by
  obtain ⟨_, hid, _, _, hmsg⟩ := c8_normalize_post ⟨none, some "", some "hello", none, none, none⟩
  exact ⟨hmsg "hello" rfl rfl (by decide), hid rfl⟩

/-- Claim C10: with no API key header and no known client address, the
caller identity is the constant "ip:unknown", so all such requests share
one rate-limit bucket. -/
theorem c10_unknown_client_bucket :
    (∀ r : Request, r.apiKey = none → r.client = none → identifyRequester r = "ip:unknown") ∧
    (∀ r1 r2 : Request, r1.apiKey = none → r1.client = none →
      r2.apiKey = none → r2.client = none →
      identifyRequester r1 = identifyRequester r2) := by
  have base : ∀ r : Request, r.apiKey = none → r.client = none →
      identifyRequester r = "ip:unknown" := by
    intro r h1 h2
    simp [identifyRequester, clientHost, h1, h2]
  exact ⟨base, fun r1 r2 ha1 hc1 ha2 hc2 => (base r1 ha1 hc1).trans (base r2 ha2 hc2).symm⟩

/-- Witness for C10 at a concrete keyless request with unknown client. -/
theorem c10_unknown_client_bucket_witness :
    identifyRequester ⟨"/api/posts", "GET", none, none, none, "p", 5⟩ = "ip:unknown" :=
  c10_unknown_client_bucket.1 ⟨"/api/posts", "GET", none, none, none, "p", 5⟩ rfl rfl

/-- Counterexample to C7 as stated: a request that carries the API key
header with an empty value is bucketed by network address, not by
`"key:" + apiKey`. -/
theorem c7_counterexample :
    identifyRequester ⟨"/api/posts", "GET", some "", none, some "1.2.3.4", "p", 5⟩ =
      "ip:1.2.3.4" ∧
    identifyRequester ⟨"/api/posts", "GET", some "", none, some "1.2.3.4", "p", 5⟩ ≠
      "key:" ++ "" := by
  constructor
  · rfl
  · intro h
    exact absurd (congrArg String.data h) (by decide)

/-- Claim C7 (amended): the bucket key is `"key:" + apiKey` for a
non-empty key header, else `"ip:" + address` (with an empty-valued key
header treated like a missing one); distinct non-empty keys and distinct
keyless addresses land in distinct buckets. -/
theorem c7_caller_identity :
    (∀ (r : Request) (k : String), r.apiKey = some k → k ≠ "" →
      identifyRequester r = "key:" ++ k) ∧
    (∀ r : Request, r.apiKey = none ∨ r.apiKey = some "" →
      identifyRequester r = "ip:" ++ clientHost r) ∧
    (∀ (r1 r2 : Request) (k1 k2 : String), r1.apiKey = some k1 → r2.apiKey = some k2 →
      k1 ≠ "" → k2 ≠ "" → k1 ≠ k2 →
      identifyRequester r1 ≠ identifyRequester r2) ∧
    (∀ r1 r2 : Request, r1.apiKey = none → r2.apiKey = none →
      clientHost r1 ≠ clientHost r2 →
      identifyRequester r1 ≠ identifyRequester r2) := by
  have hkey : ∀ (r : Request) (k : String), r.apiKey = some k → k ≠ "" →
      identifyRequester r = "key:" ++ k := by
    intro r k h hk
    simp [identifyRequester, h, hk]
  have hip : ∀ r : Request, r.apiKey = none ∨ r.apiKey = some "" →
      identifyRequester r = "ip:" ++ clientHost r := by
    intro r h
    rcases h with h | h <;> simp [identifyRequester, h]
  refine ⟨hkey, hip, ?_, ?_⟩
  · intro r1 r2 k1 k2 h1 h2 hk1 hk2 hne heq
    rw [hkey r1 k1 h1 hk1, hkey r2 k2 h2 hk2] at heq
    exact hne (string_append_left_cancel heq)
  · intro r1 r2 h1 h2 hne heq
    rw [hip r1 (Or.inl h1), hip r2 (Or.inl h2)] at heq
    exact hne (string_append_left_cancel heq)

/-- Witness for C7 (amended) at concrete requests: a keyed request is
bucketed by its key, and two different keys from the same address get
different buckets. -/
theorem c7_caller_identity_witness :
    identifyRequester ⟨"/api/posts", "GET", some "k1", none, some "1.2.3.4", "p", 5⟩ =
      "key:" ++ "k1" ∧
    identifyRequester ⟨"/api/posts", "GET", some "k1", none, some "1.2.3.4", "p", 5⟩ ≠
      identifyRequester ⟨"/api/posts", "GET", some "k2", none, some "1.2.3.4", "p", 5⟩ := by
  constructor
  · exact c7_caller_identity.1 _ "k1" rfl (by decide)
  · exact c7_caller_identity.2.2.1 _ _ "k1" "k2" rfl rfl (by decide) (by decide) (by decide)

theorem getAccessToken_ok {env : String} (h : pyStrip env ≠ "") :
    getAccessToken env = .ok (pyStrip env) := by
  simp [getAccessToken, h]

theorem getCachedPosts_of_none {cache : Cache} {p : String} {l : ℤ} (now : ℚ)
    (h : cacheGet cache (p, l) = none) : getCachedPosts cache now p l = none := by
  simp [getCachedPosts, h]

theorem getCachedPosts_expired {cache : Cache} {p : String} {l : ℤ} {e now : ℚ} {pl : Payload}
    (hget : cacheGet cache (p, l) = some (e, pl)) (h : e - now < 1) :
    getCachedPosts cache now p l = none := by
  simp only [getCachedPosts, hget]
  rw [if_pos ((pyInt_le_zero_iff _).2 h)]

theorem getCachedPosts_live {cache : Cache} {p : String} {l : ℤ} {e now : ℚ} {pl : Payload}
    (hget : cacheGet cache (p, l) = some (e, pl)) (h : 1 ≤ e - now) :
    getCachedPosts cache now p l =
      some ⟨200, .payload pl, some ("public, max-age=" ++ toString (pyInt (e - now)))⟩ := by
  simp only [getCachedPosts, hget]
  rw [if_neg (by have := (one_le_pyInt_iff (e - now)).2 h; omega)]

theorem getPageInfo_calls {envToken : String} (resp : FBData) (htok : pyStrip envToken ≠ "") :
    (getPageInfo envToken resp).2 = 1 := by
  simp only [getPageInfo, getAccessToken_ok htok]
  rcases raiseForApiError resp.error with _ | e
  · rcases resp.id with _ | i <;> rfl
  · rfl

theorem apiPosts_miss_calls {envToken : String} {oi : String → FBData} {op : String → ℤ → FBData}
    {now : ℚ} {ttl : ℤ} {cache : Cache} {p : String} {l : ℤ}
    (hmiss : getCachedPosts cache now p l = none) (htok : pyStrip envToken ≠ "") :
    1 ≤ (apiPosts envToken oi op now ttl cache p l).2.2 := by
  unfold apiPosts
  rw [hmiss]
  rcases hgi : getPageInfo envToken (oi p) with ⟨res, n1⟩
  have hn1 : n1 = 1 := by
    have := getPageInfo_calls (oi p) htok
    rw [hgi] at this
    exact this
  rcases res with e | page
  · simp [hn1]
  · rcases hgp : getPagePosts envToken (op p l) with ⟨res2, n2⟩
    rcases res2 with e | posts <;> simp [hn1]

theorem apiPosts_miss_success {envToken : String} {oi : String → FBData} {op : String → ℤ → FBData}
    (now : ℚ) (ttl : ℤ) (cache : Cache) (p : String) (l : ℤ) (pid : String)
    (hmiss : getCachedPosts cache now p l = none)
    (htok : pyStrip envToken ≠ "")
    (hierr : (oi p).error = none) (hid : (oi p).id = some pid)
    (hperr : (op p l).error = none) :
    apiPosts envToken oi op now ttl cache p l =
      (⟨200, .payload ⟨⟨pid, (oi p).name.getD "", (oi p).pictureUrl.getD ""⟩,
          (op p l).items.map normalizePost⟩,
        some ("public, max-age=" ++ toString ttl)⟩,
       cacheSet cache (p, l) (now + (ttl : ℚ),
         ⟨⟨pid, (oi p).name.getD "", (oi p).pictureUrl.getD ""⟩,
          (op p l).items.map normalizePost⟩),
       2) := by
  have hgi : getPageInfo envToken (oi p) =
      (.ok ⟨pid, (oi p).name.getD "", (oi p).pictureUrl.getD ""⟩, 1) := by
    simp [getPageInfo, getAccessToken_ok htok, hierr, raiseForApiError, hid]
  have hgp : getPagePosts envToken (op p l) = (.ok ((op p l).items.map normalizePost), 1) := by
    simp [getPagePosts, getAccessToken_ok htok, hperr, raiseForApiError]
  unfold apiPosts
  rw [hmiss, hgi, hgp]

/-- Claim C9: a lookup hits only when at least one whole second of
lifetime remains: an entry with strictly between 0 and 1 second left is
treated as absent (and, with a usable token, a fresh upstream fetch is
made), and every hit carries `max-age` at least 1. -/
theorem c9_subsecond_entries_miss :
    (∀ (cache : Cache) (now e : ℚ) (p : String) (l : ℤ) (pl : Payload),
      cacheGet cache (p, l) = some (e, pl) → now < e → pyInt (e - now) ≤ 0 →
      getCachedPosts cache now p l = none) ∧
    (∀ (envToken : String) (oi : String → FBData) (op : String → ℤ → FBData)
      (now e : ℚ) (ttl : ℤ) (cache : Cache) (p : String) (l : ℤ) (pl : Payload),
      cacheGet cache (p, l) = some (e, pl) → now < e → pyInt (e - now) ≤ 0 →
      pyStrip envToken ≠ "" →
      1 ≤ (apiPosts envToken oi op now ttl cache p l).2.2) ∧
    (∀ (cache : Cache) (now : ℚ) (p : String) (l : ℤ) (r : Resp),
      getCachedPosts cache now p l = some r →
      ∃ m : ℤ, 1 ≤ m ∧ r.cacheControl = some ("public, max-age=" ++ toString m)) := by
  have miss : ∀ (cache : Cache) (now e : ℚ) (p : String) (l : ℤ) (pl : Payload),
      cacheGet cache (p, l) = some (e, pl) → now < e → pyInt (e - now) ≤ 0 →
      getCachedPosts cache now p l = none := by
    intro cache now e p l pl hget _ hsub
    exact getCachedPosts_expired hget ((pyInt_le_zero_iff _).1 hsub)
  refine ⟨miss, ?_, ?_⟩
  · intro envToken oi op now e ttl cache p l pl hget hlt hsub htok
    exact apiPosts_miss_calls (miss cache now e p l pl hget hlt hsub) htok
  · intro cache now p l r hr
    rcases hget : cacheGet cache (p, l) with _ | ⟨e, pl⟩
    · rw [getCachedPosts_of_none now hget] at hr
      exact absurd hr (by simp)
    · simp only [getCachedPosts, hget] at hr
      by_cases hle : pyInt (e - now) ≤ 0
      · rw [if_pos hle] at hr
        exact absurd hr (by simp)
      · rw [if_neg hle] at hr
        refine ⟨pyInt (e - now), by omega, ?_⟩
        rw [← Option.some_inj.1 hr]

/-- Witness for C9: an entry with half a second of life left is a miss,
and a concrete hit on a 10-second entry reports max-age 10. -/
theorem c9_subsecond_entries_miss_witness :
    getCachedPosts [(("p", 5), ((1 : ℚ)/2, ⟨⟨"", "", ""⟩, []⟩))] 0 "p" 5 = none ∧
    (∃ m : ℤ, 1 ≤ m ∧
      (⟨200, .payload ⟨⟨"", "", ""⟩, []⟩,
        some ("public, max-age=" ++ toString (pyInt ((10 : ℚ) - 0)))⟩ : Resp).cacheControl =
        some ("public, max-age=" ++ toString m)) := by
  constructor
  · refine c9_subsecond_entries_miss.1 _ 0 ((1 : ℚ)/2) "p" 5 ⟨⟨"", "", ""⟩, []⟩ (by simp [cacheGet])
      (by norm_num) ?_
    rw [pyInt_le_zero_iff]
    norm_num
  · refine c9_subsecond_entries_miss.2.2 [(("p", 5), ((10 : ℚ), ⟨⟨"", "", ""⟩, []⟩))] 0 "p" 5 _ ?_
    exact getCachedPosts_live (by simp [cacheGet]) (by norm_num)

/-- A healthy upstream body: no error object, an id, a name, no items. -/
def healthyData : FBData := ⟨none, some "123", some "Acme", none, []⟩

/-- Upstream oracle answering every profile request with `healthyData`. -/
def oiHealthy : String → FBData := fun _ => healthyData

/-- Upstream oracle answering every posts request with `healthyData`. -/
def opHealthy : String → ℤ → FBData := fun _ _ => healthyData

/-- Counterexample to C3 as stated: with TTL 300, a first request at
t=0 and a second identical request at t=299.5 — strictly before the TTL
elapses — is NOT served from the cache: the upstream client is invoked
again, because `int(expiry - now)` is 0 for the remaining half second. -/
theorem c3_counterexample :
    (599 / 2 : ℚ) < 0 + ((300 : ℤ) : ℚ) ∧
    (apiPosts "tok" oiHealthy opHealthy (599 / 2) 300
      (apiPosts "tok" oiHealthy opHealthy 0 300 [] "123" 3).2.1 "123" 3).2.2 ≠ 0 := by
  constructor
  · push_cast
    norm_num
  · rw [apiPosts_miss_success 0 300 [] "123" 3 "123"
      (getCachedPosts_of_none 0 rfl) (by decide) rfl rfl rfl]
    have hexp : getCachedPosts
        (cacheSet [] ("123", 3) ((0 : ℚ) + ((300 : ℤ) : ℚ),
          ⟨⟨"123", (oiHealthy "123").name.getD "", (oiHealthy "123").pictureUrl.getD ""⟩,
           ((opHealthy "123" 3).items.map normalizePost)⟩))
        (599 / 2) "123" 3 = none := by
      refine getCachedPosts_expired (cacheGet_cacheSet_self _ _ _) ?_
      push_cast
      norm_num
    rw [apiPosts_miss_success (599 / 2) 300 _ "123" 3 "123" hexp (by decide) rfl rfl rfl]
    decide

/-- Claim C3 (amended): with a non-empty token and healthy upstream, a
first request on an uncached key invokes the upstream (2 calls) and
succeeds; a second identical request made while at least one full
second remains before expiry is served from the cache: 0 upstream
calls, the identical payload, and an unchanged cache; and a store under
`(p, l)` never touches the entry of any other limit `l'`. -/
theorem c3_cache_roundtrip
    (envToken : String) (oi : String → FBData) (op : String → ℤ → FBData)
    (t1 t2 : ℚ) (ttl : ℤ) (cache : Cache) (p : String) (l l' : ℤ) (pid : String)
    (hl1 : 1 ≤ l) (hl2 : l ≤ 20)
    (htok : pyStrip envToken ≠ "")
    (hmiss : getCachedPosts cache t1 p l = none)
    (hierr : (oi p).error = none) (hid : (oi p).id = some pid)
    (hperr : (op p l).error = none) :
    (apiPosts envToken oi op t1 ttl cache p l).2.2 = 2 ∧
    (apiPosts envToken oi op t1 ttl cache p l).1.status = 200 ∧
    (1 ≤ t1 + (ttl : ℚ) - t2 →
      (apiPosts envToken oi op t2 ttl (apiPosts envToken oi op t1 ttl cache p l).2.1 p l).2.2 = 0 ∧
      (apiPosts envToken oi op t2 ttl (apiPosts envToken oi op t1 ttl cache p l).2.1 p l).1.body =
        (apiPosts envToken oi op t1 ttl cache p l).1.body ∧
      (apiPosts envToken oi op t2 ttl (apiPosts envToken oi op t1 ttl cache p l).2.1 p l).2.1 =
        (apiPosts envToken oi op t1 ttl cache p l).2.1) ∧
    (l' ≠ l → cacheGet (apiPosts envToken oi op t1 ttl cache p l).2.1 (p, l') =
      cacheGet cache (p, l')) := by
  rw [apiPosts_miss_success t1 ttl cache p l pid hmiss htok hierr hid hperr]
  refine ⟨rfl, rfl, ?_, ?_⟩
  · intro hfresh
    have hhit := getCachedPosts_live (cacheGet_cacheSet_self cache (p, l)
      (t1 + (ttl : ℚ), ⟨⟨pid, (oi p).name.getD "", (oi p).pictureUrl.getD ""⟩,
        (op p l).items.map normalizePost⟩)) hfresh
    unfold apiPosts
    rw [hhit]
    exact ⟨rfl, rfl, rfl⟩
  · intro hne
    exact cacheGet_cacheSet_ne cache (p, l) (p, l') _ (by simp [hne])

/-- Witness for C3 (amended) at a concrete healthy run: first request
at t=0, second at t=100 with TTL 300. -/
theorem c3_cache_roundtrip_witness :
    (apiPosts "tok" oiHealthy opHealthy 0 300 [] "123" 3).2.2 = 2 ∧
    (apiPosts "tok" oiHealthy opHealthy 100 300
      (apiPosts "tok" oiHealthy opHealthy 0 300 [] "123" 3).2.1 "123" 3).2.2 = 0 ∧
    (apiPosts "tok" oiHealthy opHealthy 100 300
      (apiPosts "tok" oiHealthy opHealthy 0 300 [] "123" 3).2.1 "123" 3).1.body =
      (apiPosts "tok" oiHealthy opHealthy 0 300 [] "123" 3).1.body ∧
    cacheGet (apiPosts "tok" oiHealthy opHealthy 0 300 [] "123" 3).2.1 ("123", 7) = none := by
  obtain ⟨h1, h2, h3, h4⟩ := c3_cache_roundtrip "tok" oiHealthy opHealthy 0 100 300 [] "123" 3 7
    "123" (by decide) (by decide) (by decide) (getCachedPosts_of_none 0 rfl) rfl rfl rfl
  obtain ⟨h5, h6, h7⟩ := h3 (by push_cast; norm_num)
  exact ⟨h1, h5, h6, (h4 (by decide)).trans rfl⟩

/-- An upstream body carrying a throttling error object (code 4). -/
def errData : FBData := ⟨some ⟨some 4, some "throttled"⟩, none, none, none, []⟩

/-- Upstream profile oracle answering every request with `errData`. -/
def oiErr : String → FBData := fun _ => errData

/-- Upstream posts oracle answering every request with `errData`. -/
def opErr : String → ℤ → FBData := fun _ _ => errData

theorem getPageInfo_throttled :
    getPageInfo "tok" errData = (.error (.rateLimitError "throttled"), 1) := by
  have htok : pyStrip "tok" ≠ "" := by decide
  simp [getPageInfo, getAccessToken_ok htok, raiseForApiError, errData, rateLimitCodes]

/-- Counterexample to C4 as stated: looking up an expired entry does not
remove it from the cache map. The entry `(("p",5) ↦ (10, …))` is expired
at t=20 and reported absent, yet after the full request (whose upstream
fetch fails, so no store happens) the map still contains it. -/
theorem c4_counterexample :
    getCachedPosts [(("p", 5), ((10 : ℚ), ⟨⟨"", "", ""⟩, []⟩))] 20 "p" 5 = none ∧
    cacheGet (apiPosts "tok" oiErr opErr 20 300
        [(("p", 5), ((10 : ℚ), ⟨⟨"", "", ""⟩, []⟩))] "p" 5).2.1 ("p", 5) =
      some ((10 : ℚ), ⟨⟨"", "", ""⟩, []⟩) := by
  have hget : cacheGet [(("p", 5), ((10 : ℚ), ⟨⟨"", "", ""⟩, []⟩))] ("p", 5) =
      some ((10 : ℚ), ⟨⟨"", "", ""⟩, []⟩) := by
    simp [cacheGet]
  have hmiss := getCachedPosts_expired hget (show (10 : ℚ) - 20 < 1 by norm_num)
  refine ⟨hmiss, ?_⟩
  unfold apiPosts
  rw [hmiss, show oiErr "p" = errData from rfl, getPageInfo_throttled]
  exact hget

/-- Claim C4 (amended): an entry whose `expires_at` has passed is
treated as absent by lookup, but the lookup does not remove it: after a
request on which the upstream fetch fails (so no store overwrites the
key), the expired entry is still present in the cache map. -/
theorem c4_expired_entry_not_evicted
    (cache : Cache) (now e : ℚ) (p : String) (l : ℤ) (pl : Payload)
    (envToken : String) (oi : String → FBData) (op : String → ℤ → FBData)
    (ttl : ℤ) (err : FBError)
    (hget : cacheGet cache (p, l) = some (e, pl))
    (hexp : e ≤ now)
    (hfail : (getPageInfo envToken (oi p)).1 = .error err) :
    getCachedPosts cache now p l = none ∧
    (apiPosts envToken oi op now ttl cache p l).2.1 = cache ∧
    cacheGet (apiPosts envToken oi op now ttl cache p l).2.1 (p, l) = some (e, pl) := by
  have hmiss := getCachedPosts_expired hget (by linarith)
  have hcache : (apiPosts envToken oi op now ttl cache p l).2.1 = cache := by
    unfold apiPosts
    rw [hmiss]
    rcases hgi : getPageInfo envToken (oi p) with ⟨res, n1⟩
    rw [hgi] at hfail
    rcases res with e2 | page
    · rfl
    · exact absurd hfail (by simp)
  refine ⟨hmiss, hcache, ?_⟩
  rw [hcache]
  exact hget

/-- Witness for C4 (amended) at the concrete expired entry and failing
upstream of the counterexample scenario. -/
theorem c4_expired_entry_not_evicted_witness :
    getCachedPosts [(("q", 7), ((10 : ℚ), ⟨⟨"", "", ""⟩, []⟩))] 20 "q" 7 = none ∧
    cacheGet (apiPosts "tok" oiErr opErr 20 300
        [(("q", 7), ((10 : ℚ), ⟨⟨"", "", ""⟩, []⟩))] "q" 7).2.1 ("q", 7) =
      some ((10 : ℚ), ⟨⟨"", "", ""⟩, []⟩) := by
  obtain ⟨h1, _, h3⟩ := c4_expired_entry_not_evicted
    [(("q", 7), ((10 : ℚ), ⟨⟨"", "", ""⟩, []⟩))] 20 10 "q" 7 ⟨⟨"", "", ""⟩, []⟩
    "tok" oiErr opErr 300 (.rateLimitError "throttled")
    (by simp [cacheGet]) (by norm_num) (by rw [show oiErr "q" = errData from rfl,
      getPageInfo_throttled])
  exact ⟨h1, h3⟩

/-- Counterexample to C5 as stated: a missing access token is raised as
the `TokenError` (invalid-credential) variant, not the
`ConfigurationError`/Misconfigured variant the claim names. -/
theorem c5_counterexample :
    getPageInfo "" healthyData = (.error (.tokenError "FB_ACCESS_TOKEN not set in .env"), 0) ∧
    (∀ m, (FBError.tokenError "FB_ACCESS_TOKEN not set in .env") ≠ .configurationError m) := by
  exact ⟨rfl, fun m h => FBError.noConfusion h⟩

/-- Claim C5 (amended): a missing access token (empty after stripping)
aborts both fetches with `TokenError` before any network call (0 calls)
and is reported as 500; a missing default resource id raises
`ConfigurationError` (the Misconfigured variant), also reported as 500.
The missing-token case uses the same variant as an invalid upstream
credential, not `ConfigurationError`. -/
theorem c5_missing_credentials
    (envTok envPid : String) (resp : FBData)
    (htok : pyStrip envTok = "") (hpid : pyStrip envPid = "") :
    getPageInfo envTok resp = (.error (.tokenError "FB_ACCESS_TOKEN not set in .env"), 0) ∧
    getPagePosts envTok resp = (.error (.tokenError "FB_ACCESS_TOKEN not set in .env"), 0) ∧
    getPageId envPid = .error (.configurationError "FB_PAGE_ID not set in .env") ∧
    errResp (.tokenError "FB_ACCESS_TOKEN not set in .env") =
      ⟨500, .error "FB_ACCESS_TOKEN not set in .env", none⟩ ∧
    errResp (.configurationError "FB_PAGE_ID not set in .env") =
      ⟨500, .error "FB_PAGE_ID not set in .env", none⟩ := by
  refine ⟨?_, ?_, ?_, rfl, rfl⟩
  · simp [getPageInfo, getAccessToken, htok]
  · simp [getPagePosts, getAccessToken, htok]
  · simp [getPageId, hpid]

/-- Witness for C5 (amended) at whitespace-only environment values. -/
theorem c5_missing_credentials_witness :
    getPageInfo " " healthyData = (.error (.tokenError "FB_ACCESS_TOKEN not set in .env"), 0) ∧
    getPageId " " = .error (.configurationError "FB_PAGE_ID not set in .env") := by
  obtain ⟨h1, _, h3, _, _⟩ := c5_missing_credentials " " " " healthyData (by decide) (by decide)
  exact ⟨h1, h3⟩

/-- Claim C6: when the auth middleware rejects a request, nothing later
runs: the rate-limiter table, the cache, and the upstream call count are
unchanged, and the one rejection response is returned. -/
theorem c6_auth_rejection_short_circuits
    (registry : Option Registry) (envToken : String) (oi : String → FBData)
    (op : String → ℤ → FBData) (now : ℚ) (ttl : ℤ) (r : Request)
    (rate : RateState) (cache : Cache) (rej : Resp)
    (hrej : enforceApiKey registry r = some rej) :
    handleRequest registry envToken oi op now ttl r rate cache = (rej, rate, cache, 0) := by
  unfold handleRequest
  rw [hrej]

/-- Witness for C6 at a concrete enforced-mode request with no key:
the 401 comes back with rate table, cache, and call count untouched. -/
theorem c6_auth_rejection_short_circuits_witness :
    handleRequest (some [("k", "example.com")]) "tok" oiHealthy opHealthy 0 300
      ⟨"/api/posts", "GET", none, none, some "1.2.3.4", "p", 5⟩ [] [] =
      (⟨401, .error "Missing X-Api-Key header", none⟩, [], [], 0) :=
  c6_auth_rejection_short_circuits (some [("k", "example.com")]) "tok" oiHealthy opHealthy
    0 300 ⟨"/api/posts", "GET", none, none, some "1.2.3.4", "p", 5⟩ [] []
    ⟨401, .error "Missing X-Api-Key header", none⟩ (by decide)

/-- Counterexample to C2 as stated: in enforced mode, a request whose
`Origin` header is `null` — whose bare host[:port] is the empty string
and so does not equal the registered domain — is nevertheless accepted,
because the origin check is skipped whenever the extracted netloc is
empty. -/
theorem c2_counterexample :
    enforceApiKey (some [("k", "example.com")])
      ⟨"/api/posts", "GET", some "k", some "null", some "9.9.9.9", "p", 5⟩ = none ∧
    lowerStr (urlNetloc "null") ≠ "example.com" := by
  decide

theorem enforceApiKey_protected (reg : Registry) (r : Request)
    (hne : reg ≠ []) (hpath : pyStartswith r.path "/api/" = true)
    (hopt : r.method ≠ "OPTIONS") :
    enforceApiKey (some reg) r = validateApiKey (some reg) r := by
  have hempty : reg.isEmpty = false := by
    cases reg
    · exact absurd rfl hne
    · rfl
  have hpre : (r.method == "OPTIONS") = false := by
    simp [hopt]
  simp [enforceApiKey, hpath, hpre, hempty]

/-- Claim C2 (amended): in enforced mode on a protected path, a request
with no key header is rejected 401; a request with an unknown key is
rejected 401; a request whose Origin yields a non-empty bare host[:port]
that is not case-insensitively equal to the domain registered to the key
is rejected 401 (an Origin with an empty extractable host is accepted);
and a request with a valid key and no Origin header is accepted. -/
theorem c2_enforced_mode_auth
    (reg : Registry) (r : Request)
    (hne : reg ≠ [])
    (hpath : pyStartswith r.path "/api/" = true)
    (hopt : r.method ≠ "OPTIONS") :
    (r.apiKey = none →
      enforceApiKey (some reg) r = some ⟨401, .error "Missing X-Api-Key header", none⟩) ∧
    (∀ k, r.apiKey = some k → k ≠ "" → regLookup reg k = none →
      enforceApiKey (some reg) r = some ⟨401, .error "Invalid API key", none⟩) ∧
    (∀ k d o, r.apiKey = some k → k ≠ "" → regLookup reg k = some (lowerStr d) →
      lowerStr d ≠ "" → r.origin = some o → lowerStr (urlNetloc o) ≠ "" →
      lowerStr (urlNetloc o) ≠ lowerStr d →
      enforceApiKey (some reg) r = some ⟨401, .error "Origin does not match API key", none⟩) ∧
    (∀ k d, r.apiKey = some k → k ≠ "" → regLookup reg k = some d → d ≠ "" →
      r.origin = none → enforceApiKey (some reg) r = none) := by
  have hv := enforceApiKey_protected reg r hne hpath hopt
  refine ⟨?_, ?_, ?_, ?_⟩
  · intro h
    rw [hv]
    simp [validateApiKey, h]
  · intro k hk hkne hlook
    rw [hv]
    simp [validateApiKey, hk, hkne, hlook]
  · intro k d o hk hkne hlook hdne ho hno hmis
    rw [hv]
    have hoe : o ≠ "" := by
      intro h0
      apply hno
      rw [h0]
      rfl
    simp [validateApiKey, hk, hkne, hlook, extractRequestOrigin, ho, hoe, hdne, hno, hmis]
  · intro k d hk hkne hlook hdne hor
    rw [hv]
    simp [validateApiKey, hk, hkne, hlook, extractRequestOrigin, hor, hdne]

/-- Witness for C2 (amended) at a registry binding key "k" to the
lower-cased domain "Example.com": a cross-origin request is rejected
401, the same key with no Origin is accepted, and a keyless request is
rejected 401. -/
theorem c2_enforced_mode_auth_witness :
    enforceApiKey (some [("k", lowerStr "Example.com")])
      ⟨"/api/posts", "GET", some "k", some "https://EVIL.com", none, "p", 5⟩ =
      some ⟨401, .error "Origin does not match API key", none⟩ ∧
    enforceApiKey (some [("k", lowerStr "Example.com")])
      ⟨"/api/posts", "GET", some "k", none, none, "p", 5⟩ = none ∧
    enforceApiKey (some [("k", lowerStr "Example.com")])
      ⟨"/api/posts", "GET", none, some "https://example.com", none, "p", 5⟩ =
      some ⟨401, .error "Missing X-Api-Key header", none⟩ := by
  refine ⟨?_, ?_, ?_⟩
  · exact (c2_enforced_mode_auth [("k", lowerStr "Example.com")]
      ⟨"/api/posts", "GET", some "k", some "https://EVIL.com", none, "p", 5⟩
      (by decide) (by decide) (by decide)).2.2.1 "k" "Example.com" "https://EVIL.com"
      rfl (by decide) (by simp [regLookup]) (by decide) rfl (by decide) (by decide)
  · exact (c2_enforced_mode_auth [("k", lowerStr "Example.com")]
      ⟨"/api/posts", "GET", some "k", none, none, "p", 5⟩
      (by decide) (by decide) (by decide)).2.2.2 "k" (lowerStr "Example.com")
      rfl (by decide) (by simp [regLookup]) (by decide) rfl
  · exact (c2_enforced_mode_auth [("k", lowerStr "Example.com")]
      ⟨"/api/posts", "GET", none, some "https://example.com", none, "p", 5⟩
      (by decide) (by decide) (by decide)).1 rfl
